import Mathlib

/-!
Verification development for the THELAZYCOOK backend
(src/backend: plans.py, baby_final.py, main.py, firestore_manager.py).

The Python code is shallowly embedded: pure routing and string logic become
Lean functions; the Firestore database and the process-wide context cache
become explicit state values; Python exceptions become Except values.
Machine-level concerns (network calls of the LLM providers, real time) are
abstracted: external fetch results are inputs of the embedded functions, and
datetime.now() values are Int parameters measured in seconds.
-/

namespace LazyCook

/-! ## Python string primitives used by the embedding -/

/-- Splitting a character list on whitespace runs, accumulating the current
word reversed; empty pieces are dropped, as Python str.split() does. -/
def splitWsAux : List Char → List Char → List String
  | [], acc => if acc.isEmpty then [] else [String.mk acc.reverse]
  | c :: cs, acc =>
      if c.isWhitespace then
        if acc.isEmpty then splitWsAux cs []
        else String.mk acc.reverse :: splitWsAux cs []
      else splitWsAux cs (c :: acc)

/-- Python str.split() with no argument: split on whitespace runs, dropping
empty pieces. -/
def pyWords (s : String) : List String :=
  splitWsAux s.data []

/-- Python str.lower(), modelled with ASCII Char.toLower (character count is
preserved, as in Python). -/
def pyLower (s : String) : String :=
  String.mk (s.data.map Char.toLower)

/-- Python str.upper(), modelled with ASCII Char.toUpper. -/
def pyUpper (s : String) : String :=
  String.mk (s.data.map Char.toUpper)

/-- Python str.strip(): remove leading and trailing whitespace. -/
def pyTrim (s : String) : String :=
  String.mk
    (((s.data.dropWhile Char.isWhitespace).reverse.dropWhile
      Char.isWhitespace).reverse)

/-- Character-list prefix test. -/
def listPfx : List Char → List Char → Bool
  | [], _ => true
  | _ :: _, [] => false
  | a :: as, b :: bs => a = b && listPfx as bs

/-- Python str.startswith. -/
def strStartsWith (pfx s : String) : Bool :=
  listPfx pfx.data s.data

/-- Python slicing s[:n]: the first n characters. -/
def pyTake (s : String) (n : Nat) : String :=
  String.mk (s.data.take n)

/-- Python sep.join(list). -/
def joinSep (sep : String) : List String → String
  | [] => ""
  | [a] => a
  | a :: b :: rest => a ++ sep ++ joinSep sep (b :: rest)

/-- Python str(bool): True / False, as interpolated by f-strings. -/
def pyBoolStr (b : Bool) : String :=
  if b then "True" else "False"

/-- Python f-string interpolation of an Optional[str]: None prints as None. -/
def pyOptStr (o : Option String) : String :=
  match o with
  | some s => s
  | none => "None"

/-- Python truthiness of an Optional[str]: None and the empty string are
falsy. -/
def pyTruthy (o : Option String) : Bool :=
  match o with
  | some s => s ≠ ""
  | none => false

/-- Python truthiness of an Optional list: None and the empty list are
falsy. -/
def pyTruthyList (o : Option (List String)) : Bool :=
  match o with
  | some l => l ≠ []
  | none => false

/-! ## src/backend/plans.py -/

/-- plans.py PLAN_TO_FUNCTION: the frozen plan-to-backend table. -/
def PLAN_TO_FUNCTION : List (String × String) :=
  [("GO", "gemini"), ("PRO", "grok"), ("ULTRA", "mixed")]

/-- plans.py PLANS = keys of PLAN_TO_FUNCTION. -/
def PLANS : List String := PLAN_TO_FUNCTION.map (fun kv => kv.1)

/-- plans.py FUNCTIONS = values of PLAN_TO_FUNCTION. -/
def FUNCTIONS : List String := PLAN_TO_FUNCTION.map (fun kv => kv.2)

/-- Python dict lookup on an association list. -/
def dictGet (l : List (String × String)) (k : String) : Option String :=
  (l.find? (fun kv => kv.1 = k)).map (fun kv => kv.2)

/-- plans.py allowed_function_for_plan: PLAN_TO_FUNCTION[plan], raising
ValueError (modelled as Except.error) on a missing key. -/
def allowed_function_for_plan (plan : String) : Except String String :=
  match dictGet PLAN_TO_FUNCTION plan with
  | some f => Except.ok f
  | none => Except.error ("Unknown plan: " ++ plan)

/-- plans.py normalize_requested_function: strip, lowercase, then alias
lookup with the input itself as the default. -/
def normalize_requested_function (value : String) : String :=
  let v := pyLower (pyTrim value)
  let aliases : List (String × String) :=
    [("gemini", "gemini"), ("grok", "grok"), ("mixed", "mixed"),
     ("ai_type_1", "gemini"), ("ai_type_2", "grok"), ("ai_type_3", "mixed")]
  match dictGet aliases v with
  | some f => f
  | none => v

/-! ## src/backend/baby_final.py -/

/-- baby_final.py PLAN_TO_MODEL: the routing table of run_assistant_by_plan
(textually identical to plans.py PLAN_TO_FUNCTION). -/
def PLAN_TO_MODEL : List (String × String) :=
  [("GO", "gemini"), ("PRO", "grok"), ("ULTRA", "mixed")]

/-- baby_final.py run_assistant_by_plan, lines 300-317: normalize the plan
with upper().strip(), reject unknown plans with ValueError, and route to the
gemini / grok / mixed implementation.  The provider call itself is external
(network); the embedding returns the name of the backend function that the
routing dispatches to.  The Python error text renders the key list with
quote characters; the embedding spells the same list without them. -/
def run_assistant_by_plan_route (plan : String) : Except String String :=
  let plan_upper := pyTrim (pyUpper plan)
  match dictGet PLAN_TO_MODEL plan_upper with
  | none =>
      Except.error ("Unknown plan: " ++ plan ++ ". Supported plans: [GO, PRO, ULTRA]")
  | some model =>
      if model = "gemini" then Except.ok "gemini"
      else if model = "grok" then Except.ok "grok"
      else if model = "mixed" then Except.ok "mixed"
      else Except.error ("Unknown model: " ++ model)

/-- The positional/keyword parameter names of baby_final.run_assistant_by_plan
(lines 274-280).  The signature has no **kwargs. -/
def run_assistant_by_plan_params : List String :=
  ["plan", "prompt", "user_id", "conversation_limit", "document_limit"]

/-- Python keyword-argument binding against a signature without **kwargs:
the call raises TypeError naming the first unexpected keyword (CPython
quotes the keyword name; the embedding spells it without quotes).  Only the
keyword names matter for the outcome, so argument values are not carried. -/
def bindKwargs (params : List String) (kwargs : List String) : Except String Unit :=
  match kwargs.find? (fun k => ¬ params.contains k) with
  | some k =>
      Except.error ("run_assistant_by_plan() got an unexpected keyword argument " ++ k)
  | none => Except.ok ()

/-! ## src/backend/main.py: the /chat and /ai/run handler -/

/-- Python exceptions distinguished by the handler except clauses. -/
inductive PyExc where
  | typeError (msg : String)
  | valueError (msg : String)
deriving DecidableEq, Repr

/-- Request body of POST /chat and POST /ai/run (class AIRunIn). -/
structure AIRunIn where
  prompt : String
  model : Option String
  chat_id : Option String
  document_id : Option String
  document_ids : Option (List String)
deriving DecidableEq, Repr

/-- The authenticated user record as resolved by auth.get_current_user. -/
structure AuthUser where
  user_id : String
  plan : Option String
deriving DecidableEq, Repr

/-- Outcome of one request to the handler: a successful JSON response, an
HTTPException with a status code, or an exception escaping the handler
(which the framework turns into an internal server error, not a 4xx). -/
inductive HandlerResult where
  | response (model : String)
  | httpError (status : Nat) (detail : String)
  | unhandled (exc : PyExc)
deriving DecidableEq, Repr

/-- main.py line 205: user_plan = (x_user_plan or user.get(plan) or GO)
.upper().strip(), with Python or-chains treating None and empty strings as
falsy. -/
def resolvePlan (x_user_plan : Option String) (user : AuthUser) : String :=
  let raw :=
    if pyTruthy x_user_plan then x_user_plan.getD ""
    else if pyTruthy user.plan then user.plan.getD ""
    else "GO"
  pyTrim (pyUpper raw)

/-- main.py line 228: user_id = (x_user_id or user[user_id]).strip() or
user[user_id]. -/
def resolveUserId (x_user_id : Option String) (user : AuthUser) : String :=
  let base := if pyTruthy x_user_id then x_user_id.getD "" else user.user_id
  let t := pyTrim base
  if t ≠ "" then t else user.user_id

/-- main.py lines 265-274: the call
baby_final.run_assistant_by_plan(plan=..., prompt=..., user_id=...,
conversation_limit=..., document_limit=2, chat_id=..., document_id=...,
document_ids=...).  Python first binds the keyword arguments against the
callee signature (TypeError on an unexpected keyword, raised before the
function body runs); only a successful binding reaches the routing body,
whose unknown-plan check raises ValueError.  The argument values computed
at lines 246-263 (conversation_limit 15 for PRO/ULTRA else 30, document id
resolution) do not influence the binding outcome and are not carried. -/
def call_run_assistant_by_plan (plan : String) : Except PyExc String :=
  let kwargsUsed : List String :=
    ["plan", "prompt", "user_id", "conversation_limit", "document_limit",
     "chat_id", "document_id", "document_ids"]
  match bindKwargs run_assistant_by_plan_params kwargsUsed with
  | Except.error m => Except.error (PyExc.typeError m)
  | Except.ok _ =>
      match run_assistant_by_plan_route plan with
      | Except.error m => Except.error (PyExc.valueError m)
      | Except.ok model => Except.ok model

/-- main.py _ai_run_handler (lines 193-309), the body shared by POST /chat
and POST /ai/run.  The import at line 200 is assumed to succeed (the module
exists in the repository).  Note that both allowed_function_for_plan calls
(lines 221 and 231) happen outside the try/except that starts at line 245,
so a ValueError they raise escapes the handler. -/
def ai_run_handler (payload : AIRunIn) (user : AuthUser)
    (x_user_id x_user_plan : Option String) : HandlerResult :=
  let user_plan := resolvePlan x_user_plan user
  let modelCheck : Option HandlerResult :=
    match payload.model with
    | none => none
    | some m =>
        let requested := normalize_requested_function m
        if ¬ FUNCTIONS.contains requested then
          some (HandlerResult.httpError 400 "Invalid model")
        else
          match allowed_function_for_plan user_plan with
          | Except.error e => some (HandlerResult.unhandled (PyExc.valueError e))
          | Except.ok allowed_fn_name =>
              if requested ≠ allowed_fn_name then
                some (HandlerResult.httpError 403 "Upgrade plan to access this AI")
              else none
  match modelCheck with
  | some r => r
  | none =>
      let _user_id := resolveUserId x_user_id user
      match allowed_function_for_plan user_plan with
      | Except.error e => HandlerResult.unhandled (PyExc.valueError e)
      | Except.ok _expected_model =>
          match call_run_assistant_by_plan user_plan with
          | Except.ok model => HandlerResult.response model
          | Except.error (PyExc.valueError e) => HandlerResult.httpError 400 e
          | Except.error (PyExc.typeError e) =>
              HandlerResult.httpError 500 ("AI processing failed: " ++ e)

/-! ## src/backend/firestore_manager.py: data model -/

/-- Conversation record (class Conversation of the external lazycook6 module,
as used by firestore_manager.py: fields id, user_id, user_message,
ai_response, topics, timestamp, chat_id).  Timestamps are Int seconds; an
empty chat_id models a missing/falsy attribute. -/
structure Conversation where
  id : String
  user_id : String
  user_message : String
  ai_response : String
  topics : List String
  timestamp : Int
  chat_id : String
deriving DecidableEq, Repr

/-- Document record (class Document of lazycook6, as used by
firestore_manager.py get_documents_context). -/
structure Document where
  id : String
  filename : String
  content : String
deriving DecidableEq, Repr

/-- The process-wide mutable cache shared by all FirestoreManager instances:
_shared_context_cache and _shared_context_cache_time (lines 36-37),
modelled as insertion-ordered association lists (Python dicts). -/
structure CacheState where
  cached : List (String × String)
  times : List (String × Int)
deriving DecidableEq, Repr

/-- Python dict lookup (d.get(k) / k in d). -/
def lookupA {α : Type} (l : List (String × α)) (k : String) : Option α :=
  (l.find? (fun kv => kv.1 = k)).map (fun kv => kv.2)

/-- Python dict assignment d[k] = v: update in place, or append a new key. -/
def dictSet {α : Type} (l : List (String × α)) (k : String) (v : α) :
    List (String × α) :=
  if l.any (fun kv => kv.1 = k) then
    l.map (fun kv => if kv.1 = k then (k, v) else kv)
  else
    l ++ [(k, v)]

/-- The cache TTL: timedelta(minutes=5), in seconds (line 51). -/
def cacheTTL : Int := 300

/-- The no-history fallback string of get_conversation_context. -/
def noHistory : String := "No previous conversation history available."

/-! ## firestore_manager.py: cache invalidation and save_conversation -/

/-- The prefix used by clear_cached_context (lines 744-749), with the Python
truthiness test on chat_id. -/
def clearPrefix (user_id : String) (chat_id : Option String) : String :=
  if pyTruthy chat_id then user_id ++ "_" ++ chat_id.getD "" ++ "_"
  else user_id ++ "_"

/-- firestore_manager.py clear_cached_context (lines 736-759): collect the
keys of _cached_context that start with the prefix and pop them from both
dicts. -/
def clear_cached_context (st : CacheState) (user_id : String)
    (chat_id : Option String) : CacheState :=
  let pfx := clearPrefix user_id chat_id
  let keysToRemove := (st.cached.map (fun kv => kv.1)).filter
    (fun k => strStartsWith pfx k)
  { cached := st.cached.filter (fun kv => ¬ keysToRemove.contains kv.1),
    times := st.times.filter (fun kv => ¬ keysToRemove.contains kv.1) }

/-- The Firestore conversation store, keyed by
(user_id, chatHistory document name, conversation id).  save_conversation
writes under the chat id when one is given and under newChat otherwise. -/
structure ConvStore where
  entries : List ((String × String × String) × Conversation)
deriving DecidableEq, Repr

/-- Combined mutable state touched by save_conversation. -/
structure SaveState where
  cache : CacheState
  store : ConvStore
deriving DecidableEq, Repr

/-- Firestore document set on the store (overwrite by full path). -/
def storeSet (s : ConvStore) (k : String × String × String)
    (v : Conversation) : ConvStore :=
  if s.entries.any (fun kv => kv.1 = k) then
    ⟨s.entries.map (fun kv => if kv.1 = k then (k, v) else kv)⟩
  else
    ⟨s.entries ++ [(k, v)]⟩

/-- firestore_manager.py save_conversation (lines 161-209): invalidate the
cache for the conversation user and chat, then write the conversation under
chatHistory/chat_id (or chatHistory/newChat when chat_id is falsy). -/
def save_conversation (st : SaveState) (conversation : Conversation)
    (chat_id : Option String) : SaveState :=
  let cache := clear_cached_context st.cache conversation.user_id chat_id
  let docName := if pyTruthy chat_id then chat_id.getD "" else "newChat"
  { cache := cache,
    store := storeSet st.store (conversation.user_id, docName, conversation.id)
      conversation }

/-! ## firestore_manager.py: context assembly (get_conversation_context) -/

/-- The fetch interface seen by get_conversation_context: the results of
_get_chat_specific_conversations, get_session_conversations and
get_recent_conversations, as functions of their arguments.  The Firestore
contents are external state, so these are inputs of the embedding. -/
structure FetchEnv where
  chatSpecific : String → String → Nat → List Conversation
  session : String → Nat → List Conversation
  recent : String → Nat → List Conversation

/-- _get_effective_limit (lines 66-73): a provided non-negative limit wins,
else the instance conversation_limit. -/
def effectiveLimit (provided : Option Nat) (instLimit : Nat) : Nat :=
  provided.getD instLimit

/-- Lines 365-396: fetch the initial conversation list and decide whether
this is really a new chat.  Returns (conversations, real_is_new_chat). -/
def initialConversations (env : FetchEnv) (user_id : String) (limit : Nat)
    (chat_id : Option String)
    (current_chat_messages : Option (List Conversation)) :
    List Conversation × Bool :=
  if pyTruthy chat_id then
    let cs := env.chatSpecific user_id (chat_id.getD "") limit
    (cs, cs.isEmpty)
  else
    match current_chat_messages with
    | some ms =>
        if ms.length > 0 then (ms, false)
        else
          let cs := env.session user_id limit
          (cs, cs.isEmpty)
    | none =>
        let cs := env.session user_id limit
        (cs, cs.isEmpty)

/-- Line 402: the cache key f-string
user_id _ chat_id _ limit _ real_is_new_chat. -/
def cacheKey (user_id : String) (chat_id : Option String) (limit : Nat)
    (isNew : Bool) : String :=
  user_id ++ "_" ++ pyOptStr chat_id ++ "_" ++ toString limit ++ "_" ++
    pyBoolStr isNew

/-- The stopword set of line 417. -/
def stops : List String :=
  ["the", "is", "at", "which", "on", "and", "a", "an", "in", "to", "of",
   "for", "it", "this", "that", "i", "my", "me"]

/-- Lines 414-418: keyword extraction from the current query.  The guard is
Python truthiness of current_query; a keyword is the lowercase form of a
word whose lowercase form is not a stopword and whose length exceeds 3. -/
def queryKeywords (current_query : Option String) : List String :=
  if pyTruthy current_query then
    ((pyWords (current_query.getD "")).filter
      (fun w => ¬ stops.contains (pyLower w) ∧ w.length > 3)).map pyLower
  else
    []

/-- The searchable word set of one conversation (lines 426-427, 450-451):
user message, AI response and topics joined by blanks, lowercased, split. -/
def convWords (c : Conversation) : List String :=
  pyWords (pyLower (c.user_message ++ " " ++ c.ai_response ++ " " ++
    joinSep " " c.topics))

/-- Lines 428, 452: a conversation is relevant when it shares at least one
word with the query keywords. -/
def matchesKeywords (kws : List String) (c : Conversation) : Bool :=
  kws.any (fun w => (convWords c).contains w)

/-- Stable insertion into a list sorted by timestamp descending: the new
element goes before the first element whose timestamp is not larger, so an
element inserted from further left in the original list stays left of
timestamp-equal elements. -/
def insertDesc (x : Conversation) : List Conversation → List Conversation
  | [] => [x]
  | y :: ys =>
      if x.timestamp < y.timestamp then y :: insertDesc x ys
      else x :: y :: ys

/-- Python list.sort(key=lambda x: x.timestamp, reverse=True): stable
descending sort by timestamp. -/
def pySortDesc : List Conversation → List Conversation
  | [] => []
  | x :: xs => insertDesc x (pySortDesc xs)

/-- Lines 412-458: keyword filtering and merging.  For a real new chat,
inject only the relevant global history (or nothing without keywords); for
an existing chat, sort the current conversations, append the relevant
global history whose ids are not already present, and truncate to the
limit.  The assignment to the misspelled name conversation at line 434 is
a no-op: in that branch relevant_convs[:limit] is already empty, so the
embedding keeps the empty list. -/
def filterConversations (env : FetchEnv) (user_id : String) (limit : Nat)
    (convs0 : List Conversation) (isNew : Bool)
    (current_query : Option String) : List Conversation :=
  let kws := queryKeywords current_query
  if isNew then
    if ¬ kws.isEmpty then
      let global_conversations := env.recent user_id limit
      let relevant_convs := global_conversations.filter (matchesKeywords kws)
      relevant_convs.take limit
    else
      []
  else
    let sorted := pySortDesc convs0
    let merged :=
      if ¬ kws.isEmpty then
        let current_ids := sorted.map (fun c => c.id)
        let global_conversations := env.recent user_id limit
        let global_history := global_conversations.filter
          (fun c => ¬ current_ids.contains c.id)
        let relevant_history := global_history.filter (matchesKeywords kws)
        sorted ++ relevant_history
      else
        sorted
    merged.take limit

/-- Line 470-471 message truncation: messages longer than the limit are cut
to the limit and marked with a three-character ellipsis. -/
def truncMsg (s : String) (n : Nat) : String :=
  if s.length > n then pyTake s n ++ "..." else s

/-- Lines 469-478: the text of one conversation entry in the context. -/
def convText (c : Conversation) (i : Nat) : String :=
  let user_msg := truncMsg c.user_message 500
  let ai_msg := truncMsg c.ai_response 1000
  let chat_info := if c.chat_id ≠ "" then " [Chat: " ++ c.chat_id ++ "]" else ""
  "\n--- Conv " ++ toString i ++ chat_info ++ " ---\n" ++ "USER: " ++
    user_msg ++ "\n" ++ "AI: " ++ ai_msg

/-- The context header of line 465. -/
def ctxHeader (isNew : Bool) : String :=
  "=== CONTEXT (NEW: " ++ pyBoolStr isNew ++ ") ==="

/-- Lines 469-485: accumulate entry texts while the counted length (header
plus entry texts, joining newlines not counted) stays within 8000; an entry
that would push past 8000 stops the loop. -/
def buildParts : List Conversation → Nat → Nat → List String
  | [], _, _ => []
  | c :: rest, i, len =>
      let t := convText c i
      if len + t.length > 8000 then []
      else t :: buildParts rest (i + 1) (len + t.length)

/-- Python newline.join over a list of parts. -/
def joinNL (l : List String) : String :=
  joinSep "\n" l

/-- Lines 464-488: the full context string of get_conversation_context. -/
def buildContext (isNew : Bool) (convs : List Conversation) : String :=
  let h := ctxHeader isNew
  joinNL (h :: (buildParts convs 1 h.length ++ ["\n=== END CONTEXT ==="]))

/-- firestore_manager.py get_conversation_context (lines 352-495): resolve
the limit, fetch and classify the chat, consult the shared cache (strict
TTL comparison now - cache_time < 5 minutes), otherwise filter/merge the
conversations, build the bounded context string and cache it.  The empty
result returns the no-history message without touching the cache.  Returns
the context together with the updated cache state. -/
def get_conversation_context (env : FetchEnv) (st : CacheState) (now : Int)
    (instLimit : Nat) (user_id : String) (limit0 : Option Nat)
    (chat_id : Option String) (current_query : Option String)
    (current_chat_messages : Option (List Conversation)) :
    String × CacheState :=
  let limit := effectiveLimit limit0 instLimit
  if limit = 0 then (noHistory, st)
  else
    let fetched := initialConversations env user_id limit chat_id
      current_chat_messages
    let key := cacheKey user_id chat_id limit fetched.2
    let hit : Option String :=
      match lookupA st.cached key with
      | some ctx =>
          match lookupA st.times key with
          | some t => if now - t < cacheTTL then some ctx else none
          | none => none
      | none => none
    match hit with
    | some ctx => (ctx, st)
    | none =>
        let conversations := filterConversations env user_id limit fetched.1
          fetched.2 current_query
        if conversations.isEmpty then (noHistory, st)
        else
          let context := buildContext fetched.2 conversations
          (context,
           { cached := dictSet st.cached key context,
             times := dictSet st.times key now })

/-! ## firestore_manager.py: database boundary (queries that may raise) -/

/-- The Firestore query surface used by the fetch functions.  Each query
either returns its documents (already converted to records; the timestamp
conversions of the Python code are value-preserving in this model) or
raises an exception, modelled as Except.error with the message. -/
structure FirestoreDB where
  sessionQuery : String → Nat → Except String (List Conversation)
  chatsQuery : String → Except String (List String)
  chatQuery : String → String → Nat → Except String (List Conversation)
  docsQuery : String → Nat → Except String (List Document)

/-- firestore_manager.py get_session_conversations (lines 211-275): query
chatHistory/newChat ordered by timestamp descending; any exception inside
the try is logged and the empty list is returned.  The in-memory fallback
sort at lines 265-267 only runs when a fetched conversation lacks a
timestamp, which cannot happen in this model where every record carries
one, so the ordered query result is used as is. -/
def get_session_conversations (db : FirestoreDB) (user_id : String)
    (limit : Nat) : List Conversation :=
  match db.sessionQuery user_id limit with
  | Except.ok convs => convs
  | Except.error _ => []

/-- firestore_manager.py get_recent_conversations (lines 277-350): aggregate
newChat with the five most recent conversations of every saved chat, sort
by timestamp descending, take the limit.  A failing per-chat query is
skipped (inner try, line 335); any other exception, such as the chats
listing failing, returns the empty list (outer try, line 347). -/
def get_recent_conversations (db : FirestoreDB) (user_id : String)
    (limit : Nat) : List Conversation :=
  let new_chat_convs := get_session_conversations db user_id limit
  match db.chatsQuery user_id with
  | Except.error _ => []
  | Except.ok chat_ids =>
      let rest := chat_ids.foldl
        (fun acc cid =>
          match db.chatQuery user_id cid 5 with
          | Except.ok convs => acc ++ convs
          | Except.error _ => acc)
        []
      (pySortDesc (new_chat_convs ++ rest)).take limit

/-- firestore_manager.py _get_chat_specific_conversations (lines 497-527):
query one chat history; any exception returns the empty list. -/
def get_chat_specific_conversations (db : FirestoreDB) (user_id : String)
    (chat_id : String) (limit : Nat) : List Conversation :=
  match db.chatQuery user_id chat_id limit with
  | Except.ok convs => convs
  | Except.error _ => []

/-- firestore_manager.py get_user_documents (lines 905-961): query the user
documents ordered by upload time; any exception returns the empty list. -/
def get_user_documents (db : FirestoreDB) (user_id : String) (limit : Nat) :
    List Document :=
  match db.docsQuery user_id limit with
  | Except.ok docs => docs
  | Except.error _ => []

/-- The FetchEnv induced by a database: how get_conversation_context reaches
Firestore through the fetch methods. -/
def envOfDB (db : FirestoreDB) : FetchEnv :=
  { chatSpecific := get_chat_specific_conversations db,
    session := get_session_conversations db,
    recent := get_recent_conversations db }

/-! ## firestore_manager.py: get_documents_context -/

/-- Lines 977-984: resolve document_ids from the two parameters, with
Python truthiness on document_id. -/
def resolveDocIds (document_id : Option String)
    (document_ids : Option (List String)) : Option (List String) :=
  match document_ids with
  | some l => some l
  | none =>
      match document_id with
      | some d => if d ≠ "" then some [d] else none
      | none => none

/-- Lines 995-1016: the documents that contribute to the context.  With a
truthy resolved id list, for each requested id the first fetched document
with that id is taken (inner for with break); only those attached documents
are used, and a fully unmatched list yields no documents.  Without ids the
first limit fetched documents are used. -/
def selectDocuments (fetched : List Document) (limit : Nat)
    (ids : Option (List String)) : List Document :=
  if pyTruthyList ids then
    let idList := ids.getD []
    let specific_docs := idList.filterMap
      (fun did => fetched.find? (fun d => d.id = did))
    if ¬ specific_docs.isEmpty then specific_docs else []
  else
    fetched.take limit

/-- Lines 1022-1036: render the selected documents. -/
def renderDocs (documents : List Document) (ids : Option (List String))
    (full_content : Bool) : String :=
  let parts := (documents.enum).foldr
    (fun di acc =>
      let doc := di.2
      let i := di.1
      let marker :=
        if pyTruthyList ids ∧ (ids.getD []).contains doc.id then " (ATTACHED)"
        else ""
      let headerLine := "\n--- Document " ++ toString (i + 1) ++ ": " ++
        doc.filename ++ marker ++ " ---"
      let body :=
        if full_content then doc.content
        else truncMsg doc.content 500
      headerLine :: body :: acc)
    []
  joinNL parts

/-- firestore_manager.py get_documents_context (lines 975-1038): fetch the
user documents with twice the limit, select by the resolved ids and render;
no selected documents yields the empty string. -/
def get_documents_context (db : FirestoreDB) (user_id : String) (limit : Nat)
    (full_content : Bool) (document_id : Option String)
    (document_ids : Option (List String)) : String :=
  let ids := resolveDocIds document_id document_ids
  let fetched := get_user_documents db user_id (limit * 2)
  let documents := selectDocuments fetched limit ids
  if documents.isEmpty then ""
  else renderDocs documents ids full_content

/-! ## Helper lemmas -/

instance {α β : Type} [DecidableEq α] [DecidableEq β] :
    DecidableEq (Except α β) := fun a b =>
  match a, b with
  | Except.ok x, Except.ok y =>
      if h : x = y then isTrue (by rw [h]) else isFalse (by simp [h])
  | Except.error x, Except.error y =>
      if h : x = y then isTrue (by rw [h]) else isFalse (by simp [h])
  | Except.ok _, Except.error _ => isFalse (by simp)
  | Except.error _, Except.ok _ => isFalse (by simp)

/-! ## Concrete fixtures used by witnesses and counterexamples -/

/-- Fetch environment for the C4 instances: the chat-specific fetch always
comes back empty, so the chat resolves as new. -/
def c4env : FetchEnv :=
  ⟨fun _ _ _ => [], fun _ _ => [], fun _ _ => []⟩

/-- Cache state for the C4 instances: one stored context for user u, chat
c1, limit 5, new-chat flag True, stored at time 0. -/
def c4st : CacheState :=
  ⟨[("u_c1_5_True", "old context")], [("u_c1_5_True", 0)]⟩

/-- Save state for the C5 instances: the shared cache holds one entry of
user a_b (key built by cacheKey for user a_b, chat c, limit 5, new-chat
True) and one entry of user a (chat c9). -/
def c5st : SaveState :=
  ⟨⟨[(cacheKey "a_b" (some "c") 5 true, "ctx of a_b"),
     (cacheKey "b" (some "c") 5 true, "ctx of b")],
    [(cacheKey "a_b" (some "c") 5 true, 10),
     (cacheKey "b" (some "c") 5 true, 11)]⟩, ⟨[]⟩⟩

/-- A conversation of user a, used to trigger invalidation for user a. -/
def c5conv : Conversation :=
  ⟨"conv1", "a", "message", "reply", [], 0, ""⟩

/-- Current-chat conversations for the C7 counterexample. -/
def c7current : List Conversation :=
  [⟨"x1", "u", "about cooking", "sure", [], 5, ""⟩]

/-- A duplicated global conversation for the C7 counterexample. -/
def c7dup : Conversation :=
  ⟨"g1", "u", "pasta recipe details", "ok", [], 3, ""⟩

/-- Environment for the C7 counterexample: the aggregated global history
contains the same conversation id twice (possible because
get_recent_conversations concatenates the newChat store with every saved
chat store, and the same conversation id can be saved under both). -/
def c7env : FetchEnv :=
  ⟨fun _ _ _ => [], fun _ _ => [], fun _ _ => [c7dup, c7dup]⟩

/-- Global history for the C8 witness: one conversation about pasta. -/
def c8global : Conversation :=
  ⟨"g1", "u", "how do I cook pasta properly", "boil it", [], 3, ""⟩

/-- Environment for the C8 witness: empty chat store, one global entry. -/
def c8env : FetchEnv :=
  ⟨fun _ _ _ => [], fun _ _ => [], fun _ _ => [c8global]⟩

/-- Total character count of a list of parts. -/
def sumLens (l : List String) : Nat :=
  (l.map String.length).sum

/-- The budget-free variant of buildParts: the text of every conversation,
numbered from i.  buildParts always produces a prefix of this list. -/
def buildAll : List Conversation → Nat → List String
  | [], _ => []
  | c :: rest, i => convText c i :: buildAll rest (i + 1)

/-- A run of n letters a, for the C6 counterexample messages. -/
def bigA (n : Nat) : String :=
  String.mk (List.replicate n 'a')

/-- A stored conversation with a 500-character user message and a
1000-character AI response: neither is truncated, and its entry text is
1526 + digits(i) characters long. -/
def c6big : Conversation :=
  ⟨"k", "u", bigA 500, bigA 1000, [], 0, ""⟩

/-- A stored conversation with a 310-character user message and an empty
AI response: its entry text at index 6 is 337 characters long. -/
def c6small : Conversation :=
  ⟨"k6", "u", bigA 310, "", [], 0, ""⟩

/-- Six stored conversations whose counted budget lands exactly on 8000. -/
def c6convs : List Conversation :=
  [c6big, c6big, c6big, c6big, c6big, c6small]

/-- Environment for the C6 counterexample: the chat fetch returns the six
conversations. -/
def c6env : FetchEnv :=
  ⟨fun _ _ _ => c6convs, fun _ _ => [], fun _ _ => []⟩

theorem dictGet_eq_some_mem {l : List (String × String)} {k v : String}
    (h : dictGet l k = some v) : (k, v) ∈ l := by
  unfold dictGet at h
  cases hf : l.find? (fun kv => kv.1 = k) with
  | none => rw [hf] at h; simp at h
  | some kv =>
      rw [hf] at h
      simp at h
      have hk : kv.1 = k := by
        have := List.find?_some hf
        simpa using this
      have hmem := List.mem_of_find?_eq_some hf
      have : kv = (k, v) := by
        cases kv
        simp_all
      rw [this] at hmem
      exact hmem

/-! ## Claim theorems -/

/-- Claim C1: the plan-to-backend mapping is exact and fallback-free.
allowed_function_for_plan maps GO to gemini, PRO to grok, ULTRA to mixed,
and raises ValueError (models as Except.error) for every other input;
run_assistant_by_plan routes by the same table after upper-casing and
stripping the plan. -/
theorem C1_plan_routing :
    allowed_function_for_plan "GO" = Except.ok "gemini" ∧
    allowed_function_for_plan "PRO" = Except.ok "grok" ∧
    allowed_function_for_plan "ULTRA" = Except.ok "mixed" ∧
    (∀ plan : String, plan ∉ PLANS →
      allowed_function_for_plan plan =
        Except.error ("Unknown plan: " ++ plan)) ∧
    (∀ plan : String,
      run_assistant_by_plan_route plan =
        match allowed_function_for_plan (pyTrim (pyUpper plan)) with
        | Except.ok f => Except.ok f
        | Except.error _ =>
            Except.error
              ("Unknown plan: " ++ plan ++ ". Supported plans: [GO, PRO, ULTRA]")) := by
  refine ⟨by decide, by decide, by decide, ?_, ?_⟩
  · intro plan h
    simp only [PLANS, PLAN_TO_FUNCTION, List.map, List.mem_cons,
      List.not_mem_nil, or_false] at h
    push_neg at h
    obtain ⟨h1, h2, h3⟩ := h
    simp [allowed_function_for_plan, dictGet, PLAN_TO_FUNCTION, List.find?,
      Ne.symm h1, Ne.symm h2, Ne.symm h3]
  · intro plan
    unfold run_assistant_by_plan_route allowed_function_for_plan
    cases h : dictGet PLAN_TO_MODEL (pyTrim (pyUpper plan)) with
    | none =>
        have h2 : dictGet PLAN_TO_FUNCTION (pyTrim (pyUpper plan)) = none := h
        simp [h, h2]
    | some model =>
        have h2 : dictGet PLAN_TO_FUNCTION (pyTrim (pyUpper plan)) =
            some model := h
        have hmem := dictGet_eq_some_mem h
        simp only [PLAN_TO_MODEL, List.mem_cons, List.not_mem_nil,
          or_false, Prod.mk.injEq] at hmem
        rcases hmem with ⟨_, hm⟩ | ⟨_, hm⟩ | ⟨_, hm⟩ <;> subst hm <;>
          simp [h, h2]

/-- Witness for Claim C1: the unknown-plan hypothesis discharged at the
concrete plan FREE. -/
theorem C1_plan_routing_witness :
    "FREE" ∉ PLANS ∧
    allowed_function_for_plan "FREE" = Except.error "Unknown plan: FREE" :=
  ⟨by decide, C1_plan_routing.2.2.2.1 "FREE" (by decide)⟩

/-- Claim C2: for every request to POST /chat or POST /ai/run whose resolved
plan is recognized, the handler invokes run_assistant_by_plan with keyword
arguments chat_id, document_id and document_ids that the signature does not
accept, so the call raises TypeError, converted by the surrounding except
clause to an HTTP 500 AI-processing-failed response; no such request can
return a successful AI result. -/
theorem C2_recognized_plan_call_fails (payload : AIRunIn) (user : AuthUser)
    (x_user_id x_user_plan : Option String)
    (hplan : resolvePlan x_user_plan user ∈ PLANS) :
    (∀ m, ai_run_handler payload user x_user_id x_user_plan ≠
      HandlerResult.response m) ∧
    (payload.model = none →
      ai_run_handler payload user x_user_id x_user_plan =
        HandlerResult.httpError 500
          ("AI processing failed: run_assistant_by_plan() got an unexpected keyword argument chat_id")) := by
  have hbind : bindKwargs run_assistant_by_plan_params
      ["plan", "prompt", "user_id", "conversation_limit", "document_limit",
       "chat_id", "document_id", "document_ids"] =
      Except.error
        "run_assistant_by_plan() got an unexpected keyword argument chat_id" := by
    decide
  have hcall : ∀ p, call_run_assistant_by_plan p =
      Except.error (PyExc.typeError
        "run_assistant_by_plan() got an unexpected keyword argument chat_id") := by
    intro p
    simp [call_run_assistant_by_plan, hbind]
  have hallowed : ∃ f, allowed_function_for_plan
      (resolvePlan x_user_plan user) = Except.ok f := by
    simp only [PLANS, PLAN_TO_FUNCTION, List.map, List.mem_cons,
      List.not_mem_nil, or_false] at hplan
    rcases hplan with h | h | h
    · rw [h]; exact ⟨"gemini", by decide⟩
    · rw [h]; exact ⟨"grok", by decide⟩
    · rw [h]; exact ⟨"mixed", by decide⟩
  obtain ⟨f, hf⟩ := hallowed
  constructor
  · intro m
    cases hm : payload.model with
    | none => simp [ai_run_handler, hm, hf, hcall]
    | some v =>
        simp only [ai_run_handler, hm, hf, hcall]
        split
        next r heq =>
          split at heq
          · injection heq with h; subst h; simp
          · split at heq
            · injection heq with h; subst h; simp
            · simp at heq
        next => simp
  · intro hm
    simp [ai_run_handler, hm, hf, hcall]

/-- Witness for Claim C2: a concrete GO-plan request without a model field
receives the 500 AI-processing-failed response. -/
theorem C2_recognized_plan_call_fails_witness :
    resolvePlan (some "GO") ⟨"user_001", none⟩ ∈ PLANS ∧
    ai_run_handler ⟨"hello", none, none, none, none⟩ ⟨"user_001", none⟩
        none (some "GO") =
      HandlerResult.httpError 500
        ("AI processing failed: run_assistant_by_plan() got an unexpected keyword argument chat_id") :=
  ⟨by decide,
   (C2_recognized_plan_call_fails ⟨"hello", none, none, none, none⟩
     ⟨"user_001", none⟩ none (some "GO") (by decide)).2 rfl⟩

/-- Claim C3 (code bug): a request whose resolved plan is unrecognized does
not receive a 4xx response; allowed_function_for_plan is called at
main.py line 231, outside the try/except that starts at line 245, so the
ValueError escapes the handler as an unhandled exception (the except
ValueError at line 298 that was meant to produce the 400 never sees it). -/
theorem C3_unknown_plan_unhandled :
    ai_run_handler ⟨"hello", none, none, none, none⟩ ⟨"user_001", none⟩
        none (some "FREE") =
      HandlerResult.unhandled (PyExc.valueError "Unknown plan: FREE") := by
  decide

/-- Claim C9: if get_documents_context is called with a non-empty list of
document ids none of which equals the id of any document retrieved for the
user, it returns the empty string; and whenever ids are given, only fetched
documents whose id is among the given ids are selected to contribute. -/
theorem C9_unknown_document_ids (db : FirestoreDB) (uid : String)
    (limit : Nat) (full_content : Bool) (ids : List String)
    (hne : ids ≠ [])
    (h : ∀ d ∈ get_user_documents db uid (limit * 2), d.id ∉ ids) :
    get_documents_context db uid limit full_content none (some ids) = "" ∧
    (∀ (fetched : List Document) (lim : Nat) (ids2 : List String),
      ids2 ≠ [] →
      ∀ d ∈ selectDocuments fetched lim (some ids2),
        d ∈ fetched ∧ d.id ∈ ids2) := by
  constructor
  · have hfm : ids.filterMap
        (fun did => (get_user_documents db uid (limit * 2)).find?
          (fun d => d.id = did)) = [] := by
      rw [List.filterMap_eq_nil_iff]
      intro did hdid
      rw [List.find?_eq_none]
      intro d hd
      simp only [decide_eq_true_eq]
      intro hcontra
      exact h d hd (hcontra ▸ hdid)
    simp [get_documents_context, resolveDocIds, selectDocuments,
      pyTruthyList, hne, hfm]
  · intro fetched lim ids2 hne2 d hd
    simp only [selectDocuments, pyTruthyList, hne2, ne_eq,
      not_false_iff, if_true, Option.getD_some] at hd
    have hd2 : d ∈ ids2.filterMap
        (fun did => fetched.find? (fun dd => dd.id = did)) := by
      by_cases hsp : (ids2.filterMap
          (fun did => fetched.find? (fun dd => dd.id = did))).isEmpty
      · simp [hsp] at hd
      · simpa [hsp] using hd
    rw [List.mem_filterMap] at hd2
    obtain ⟨did, hdid, hfind⟩ := hd2
    have hp := List.find?_some hfind
    simp only [decide_eq_true_eq] at hp
    exact ⟨List.mem_of_find?_eq_some hfind, hp ▸ hdid⟩

/-- Witness for Claim C9: one stored document, one unmatched requested id. -/
theorem C9_unknown_document_ids_witness :
    (∀ d ∈ get_user_documents
        ⟨fun _ _ => Except.error "e", fun _ => Except.error "e",
         fun _ _ _ => Except.error "e",
         fun _ _ => Except.ok [⟨"d1", "notes.txt", "hello"⟩]⟩ "u" (2 * 2),
      d.id ∉ ["nope"]) ∧
    get_documents_context
        ⟨fun _ _ => Except.error "e", fun _ => Except.error "e",
         fun _ _ _ => Except.error "e",
         fun _ _ => Except.ok [⟨"d1", "notes.txt", "hello"⟩]⟩ "u" 2 true
        none (some ["nope"]) = "" :=
  ⟨by decide,
   (C9_unknown_document_ids
     ⟨fun _ _ => Except.error "e", fun _ => Except.error "e",
      fun _ _ _ => Except.error "e",
      fun _ _ => Except.ok [⟨"d1", "notes.txt", "hello"⟩]⟩ "u" 2 true
     ["nope"] (by decide) (by decide)).1⟩

/-- Claim C10: database-boundary errors yield safe empty defaults.  When the
underlying queries raise, get_session_conversations,
get_recent_conversations and get_user_documents each return the empty list,
and get_conversation_context (on a cache miss) falls back to the no-history
message instead of propagating the exception. -/
theorem C10_db_errors_empty (db : FirestoreDB) (uid cid : String)
    (st : CacheState) (now : Int) (instLimit dlimit : Nat)
    (limit0 : Option Nat) (q : Option String) (e1 e2 e3 e4 : String)
    (h1 : db.sessionQuery uid (effectiveLimit limit0 instLimit) =
      Except.error e1)
    (h2 : db.chatsQuery uid = Except.error e2)
    (h3 : db.docsQuery uid dlimit = Except.error e3)
    (h4 : db.chatQuery uid cid (effectiveLimit limit0 instLimit) =
      Except.error e4)
    (hcid : cid ≠ "")
    (hmiss : lookupA st.cached
      (cacheKey uid (some cid) (effectiveLimit limit0 instLimit) true) =
      none) :
    get_session_conversations db uid (effectiveLimit limit0 instLimit) = [] ∧
    get_recent_conversations db uid (effectiveLimit limit0 instLimit) = [] ∧
    get_user_documents db uid dlimit = [] ∧
    (get_conversation_context (envOfDB db) st now instLimit uid limit0
      (some cid) q none).1 = noHistory := by
  have hrecent : ∀ l : Nat, get_recent_conversations db uid l = [] := by
    intro l
    simp [get_recent_conversations, h2]
  have hchat : get_chat_specific_conversations db uid cid
      (effectiveLimit limit0 instLimit) = [] := by
    simp [get_chat_specific_conversations, h4]
  refine ⟨by simp [get_session_conversations, h1], hrecent _,
    by simp [get_user_documents, h3], ?_⟩
  by_cases hl : effectiveLimit limit0 instLimit = 0
  · simp [get_conversation_context, hl, noHistory]
  · by_cases hk : (queryKeywords q).isEmpty <;>
      simp [get_conversation_context, hl, initialConversations, pyTruthy,
        hcid, envOfDB, hchat, hmiss, filterConversations, hrecent, hk,
        noHistory]

/-- Witness for Claim C10: a database whose every query fails. -/
theorem C10_db_errors_empty_witness :
    get_recent_conversations
      ⟨fun _ _ => Except.error "down", fun _ => Except.error "down",
       fun _ _ _ => Except.error "down", fun _ _ => Except.error "down"⟩
      "u" 30 = [] ∧
    (get_conversation_context
      (envOfDB ⟨fun _ _ => Except.error "down", fun _ => Except.error "down",
        fun _ _ _ => Except.error "down", fun _ _ => Except.error "down"⟩)
      ⟨[], []⟩ 0 70 "u" (some 30) (some "chat_1") (some "tell me about pasta")
      none).1 = noHistory :=
  ⟨((C10_db_errors_empty
      ⟨fun _ _ => Except.error "down", fun _ => Except.error "down",
       fun _ _ _ => Except.error "down", fun _ _ => Except.error "down"⟩
      "u" "chat_1" ⟨[], []⟩ 0 70 20 (some 30) (some "tell me about pasta")
      "down" "down" "down" "down" rfl rfl rfl rfl (by decide) rfl).2.1),
   ((C10_db_errors_empty
      ⟨fun _ _ => Except.error "down", fun _ => Except.error "down",
       fun _ _ _ => Except.error "down", fun _ _ => Except.error "down"⟩
      "u" "chat_1" ⟨[], []⟩ 0 70 20 (some 30) (some "tell me about pasta")
      "down" "down" "down" "down" rfl rfl rfl rfl (by decide) rfl).2.2.2)⟩

theorem lookupA_eq_none_iff {α : Type} (l : List (String × α)) (k : String) :
    lookupA l k = none ↔ ∀ kv ∈ l, kv.1 ≠ k := by
  unfold lookupA
  constructor
  · intro h kv hkv
    cases hf : l.find? (fun kv => kv.1 = k) with
    | none =>
        have := List.find?_eq_none.mp hf kv hkv
        simpa using this
    | some x => rw [hf] at h; simp at h
  · intro h
    have hf : l.find? (fun kv => kv.1 = k) = none :=
      List.find?_eq_none.mpr (fun x hx => by simpa using h x hx)
    rw [hf]
    rfl

theorem lookupA_eq_some_mem {α : Type} {l : List (String × α)} {k : String}
    {v : α} (h : lookupA l k = some v) : (k, v) ∈ l := by
  unfold lookupA at h
  cases hf : l.find? (fun kv => kv.1 = k) with
  | none => rw [hf] at h; simp at h
  | some kv =>
      rw [hf] at h
      simp at h
      have hk : kv.1 = k := by
        have := List.find?_some hf
        simpa using this
      have hmem := List.mem_of_find?_eq_some hf
      have hkv : kv = (k, v) := by
        cases kv
        simp_all
      rw [hkv] at hmem
      exact hmem

theorem lookupA_filter_stable {α : Type} (l : List (String × α))
    (ks : List String) (k : String) (hk : ¬ ks.contains k = true) :
    lookupA (l.filter (fun kv => ¬ ks.contains kv.1)) k = lookupA l k := by
  induction l with
  | nil => rfl
  | cons a tl ih =>
      by_cases ha : ks.contains a.1 = true
      · have hne : ¬ a.1 = k := fun he => hk (he ▸ ha)
        have hstep : (a :: tl).filter (fun kv => ¬ ks.contains kv.1) =
            tl.filter (fun kv => ¬ ks.contains kv.1) := by
          have hm : a.1 ∈ ks := List.elem_iff.mp ha
          simp only [List.filter_cons]
          rw [if_neg (by simpa using hm)]
        rw [hstep, ih]
        unfold lookupA
        rw [List.find?_cons_of_neg _ (by simpa using hne)]
      · have hstep : (a :: tl).filter (fun kv => ¬ ks.contains kv.1) =
            a :: tl.filter (fun kv => ¬ ks.contains kv.1) := by
          simp only [List.filter_cons]
          rw [if_pos (by simp only [decide_eq_true_eq]; exact ha)]
        rw [hstep]
        by_cases he : a.1 = k
        · unfold lookupA
          rw [List.find?_cons_of_pos _ (by simpa using he),
            List.find?_cons_of_pos _ (by simpa using he)]
        · unfold lookupA at ih ⊢
          rw [List.find?_cons_of_neg _ (by simpa using he),
            List.find?_cons_of_neg _ (by simpa using he)]
          exact ih

theorem lookupA_filter_removed {α : Type} (l : List (String × α))
    (ks : List String) (k : String) (hk : ks.contains k = true) :
    lookupA (l.filter (fun kv => ¬ ks.contains kv.1)) k = none := by
  rw [lookupA_eq_none_iff]
  intro kv hkv
  rw [List.mem_filter] at hkv
  intro he
  have h2 := hkv.2
  rw [he] at h2
  simp only [decide_eq_true_eq] at h2
  exact h2 hk

/-- Claim C4 (amended): if get_conversation_context stored a context string
under a cache key and is called again with the same key strictly less than
5 minutes after the stored cache time, with no intervening invalidation, it
returns the stored string unchanged and leaves the cache untouched; at or
after the 5-minute expiry it ignores the cache and rebuilds from the
fetched conversations, re-caching with the new time whenever the rebuilt
conversation list is non-empty, while an empty rebuild returns the
no-history message and leaves the cache (including the stale entry and its
old timestamp) unchanged. -/
theorem C4_cache_ttl (env : FetchEnv) (st : CacheState) (now t : Int)
    (instLimit : Nat) (uid : String) (limit0 : Option Nat)
    (chat_id : Option String) (q : Option String)
    (msgs : Option (List Conversation)) (ctx : String)
    (hlim : effectiveLimit limit0 instLimit ≠ 0)
    (hc : lookupA st.cached
      (cacheKey uid chat_id (effectiveLimit limit0 instLimit)
        (initialConversations env uid (effectiveLimit limit0 instLimit)
          chat_id msgs).2) = some ctx)
    (ht : lookupA st.times
      (cacheKey uid chat_id (effectiveLimit limit0 instLimit)
        (initialConversations env uid (effectiveLimit limit0 instLimit)
          chat_id msgs).2) = some t) :
    (now - t < cacheTTL →
      get_conversation_context env st now instLimit uid limit0 chat_id q
        msgs = (ctx, st)) ∧
    (cacheTTL ≤ now - t →
      (filterConversations env uid (effectiveLimit limit0 instLimit)
          (initialConversations env uid (effectiveLimit limit0 instLimit)
            chat_id msgs).1
          (initialConversations env uid (effectiveLimit limit0 instLimit)
            chat_id msgs).2 q = [] →
        get_conversation_context env st now instLimit uid limit0 chat_id q
          msgs = (noHistory, st)) ∧
      (filterConversations env uid (effectiveLimit limit0 instLimit)
          (initialConversations env uid (effectiveLimit limit0 instLimit)
            chat_id msgs).1
          (initialConversations env uid (effectiveLimit limit0 instLimit)
            chat_id msgs).2 q ≠ [] →
        get_conversation_context env st now instLimit uid limit0 chat_id q
          msgs =
          (buildContext
            (initialConversations env uid (effectiveLimit limit0 instLimit)
              chat_id msgs).2
            (filterConversations env uid (effectiveLimit limit0 instLimit)
              (initialConversations env uid
                (effectiveLimit limit0 instLimit) chat_id msgs).1
              (initialConversations env uid
                (effectiveLimit limit0 instLimit) chat_id msgs).2 q),
           { cached := dictSet st.cached
              (cacheKey uid chat_id (effectiveLimit limit0 instLimit)
                (initialConversations env uid
                  (effectiveLimit limit0 instLimit) chat_id msgs).2)
              (buildContext
                (initialConversations env uid
                  (effectiveLimit limit0 instLimit) chat_id msgs).2
                (filterConversations env uid
                  (effectiveLimit limit0 instLimit)
                  (initialConversations env uid
                    (effectiveLimit limit0 instLimit) chat_id msgs).1
                  (initialConversations env uid
                    (effectiveLimit limit0 instLimit) chat_id msgs).2 q)),
             times := dictSet st.times
              (cacheKey uid chat_id (effectiveLimit limit0 instLimit)
                (initialConversations env uid
                  (effectiveLimit limit0 instLimit) chat_id msgs).2)
              now }))) := by
  refine ⟨?_, fun hexp => ⟨?_, ?_⟩⟩
  · intro hfresh
    simp [get_conversation_context, hlim, hc, ht, hfresh]
  · intro hempty
    have hnotfresh : ¬ (now - t < cacheTTL) := not_lt.mpr hexp
    simp [get_conversation_context, hlim, hc, ht, hnotfresh, hempty]
  · intro hne
    have hnotfresh : ¬ (now - t < cacheTTL) := not_lt.mpr hexp
    simp [get_conversation_context, hlim, hc, ht, hnotfresh, hne]

/-- Counterexample to Claim C4 as stated: at exactly the 5-minute expiry
(now = 300 seconds after the stored time 0) the call does not re-cache a
rebuilt context with the new time; the rebuilt conversation list is empty,
so the no-history message is returned and the cache still carries the stale
entry with its old timestamp. -/
theorem C4_counterexample :
    get_conversation_context c4env c4st 300 70 "u" (some 5) (some "c1")
      none none = (noHistory, c4st) ∧
    lookupA c4st.cached "u_c1_5_True" = some "old context" ∧
    lookupA c4st.times "u_c1_5_True" = some 0 := by
  decide

/-- Witness for Claim C4: a call 100 seconds after the store returns the
cached string unchanged. -/
theorem C4_cache_ttl_witness :
    ((100 : Int) - 0 < cacheTTL) ∧
    get_conversation_context c4env c4st 100 70 "u" (some 5) (some "c1")
      none none = ("old context", c4st) :=
  ⟨by decide,
   (C4_cache_ttl c4env c4st 100 0 70 "u" (some 5) (some "c1") none none
     "old context" (by decide) (by decide) (by decide)).1 (by decide)⟩

/-- Claim C5 (amended): after save_conversation completes, the shared
context cache and its timestamp map contain no entry whose key starts with
the invalidation prefix of the conversation user and chat (given the code
invariant that every timestamped key is a cached key), and every entry
whose key does not start with that prefix is unchanged.  Entries of other
users are not always preserved: a key merely has to start with the prefix
string, so the inner counterexample removes another user through prefix
collision. -/
theorem C5_save_invalidates (st : SaveState) (conversation : Conversation)
    (chat_id : Option String)
    (hsync : ∀ kv ∈ st.cache.times, ∃ kv2 ∈ st.cache.cached,
      kv2.1 = kv.1) :
    (∀ k, strStartsWith (clearPrefix conversation.user_id chat_id) k →
      lookupA (save_conversation st conversation chat_id).cache.cached k =
        none) ∧
    (∀ k, strStartsWith (clearPrefix conversation.user_id chat_id) k →
      lookupA (save_conversation st conversation chat_id).cache.times k =
        none) ∧
    (∀ k, ¬ strStartsWith (clearPrefix conversation.user_id chat_id) k →
      lookupA (save_conversation st conversation chat_id).cache.cached k =
        lookupA st.cache.cached k ∧
      lookupA (save_conversation st conversation chat_id).cache.times k =
        lookupA st.cache.times k) := by
  have hkeys : ∀ k,
      ((st.cache.cached.map (fun kv => kv.1)).filter
        (fun x => strStartsWith (clearPrefix conversation.user_id chat_id)
          x)).contains k = true ↔
      (strStartsWith (clearPrefix conversation.user_id chat_id) k = true ∧
        ∃ kv ∈ st.cache.cached, kv.1 = k) := by
    intro k
    simp only [List.elem_iff, List.mem_filter, List.mem_map, decide_eq_true_eq]
    constructor
    · rintro ⟨⟨kv, hkv, rfl⟩, hpre⟩
      exact ⟨hpre, kv, hkv, rfl⟩
    · rintro ⟨hpre, kv, hkv, rfl⟩
      exact ⟨⟨kv, hkv, rfl⟩, hpre⟩
  refine ⟨?_, ?_, ?_⟩
  · intro k hpre
    by_cases hmem : ∃ kv ∈ st.cache.cached, kv.1 = k
    · exact lookupA_filter_removed _ _ _ ((hkeys k).mpr ⟨hpre, hmem⟩)
    · have hnone : lookupA st.cache.cached k = none := by
        rw [lookupA_eq_none_iff]
        intro kv hkv he
        exact hmem ⟨kv, hkv, he⟩
      by_cases hks : ((st.cache.cached.map (fun kv => kv.1)).filter
          (fun x => strStartsWith (clearPrefix conversation.user_id chat_id)
            x)).contains k = true
      · exact lookupA_filter_removed _ _ _ hks
      · rw [save_conversation]
        simp only [clear_cached_context]
        rw [lookupA_filter_stable _ _ _ hks]
        exact hnone
  · intro k hpre
    by_cases hmem : ∃ kv ∈ st.cache.cached, kv.1 = k
    · exact lookupA_filter_removed _ _ _ ((hkeys k).mpr ⟨hpre, hmem⟩)
    · have hnone : lookupA st.cache.cached k = none := by
        rw [lookupA_eq_none_iff]
        intro kv hkv he
        exact hmem ⟨kv, hkv, he⟩
      have htnone : lookupA st.cache.times k = none := by
        cases hl : lookupA st.cache.times k with
        | none => rfl
        | some v =>
            have hmem2 := lookupA_eq_some_mem hl
            obtain ⟨kv2, hkv2, hk2⟩ := hsync _ hmem2
            exact absurd ⟨kv2, hkv2, hk2⟩ hmem
      by_cases hks : ((st.cache.cached.map (fun kv => kv.1)).filter
          (fun x => strStartsWith (clearPrefix conversation.user_id chat_id)
            x)).contains k = true
      · exact lookupA_filter_removed _ _ _ hks
      · rw [save_conversation]
        simp only [clear_cached_context]
        rw [lookupA_filter_stable _ _ _ hks]
        exact htnone
  · intro k hpre
    have hks : ¬ ((st.cache.cached.map (fun kv => kv.1)).filter
        (fun x => strStartsWith (clearPrefix conversation.user_id chat_id)
          x)).contains k = true := by
      intro hcontra
      exact hpre ((hkeys k).mp hcontra).1
    constructor
    · rw [save_conversation]
      simp only [clear_cached_context]
      rw [lookupA_filter_stable _ _ _ hks]
    · rw [save_conversation]
      simp only [clear_cached_context]
      rw [lookupA_filter_stable _ _ _ hks]

/-- Counterexample to Claim C5 as stated: saving a conversation of user a
with chat_id None removes the cached entry of the different user a_b,
because the key a_b_c_5_True starts with the prefix a_. -/
theorem C5_counterexample :
    c5conv.user_id = "a" ∧ ("a" : String) ≠ "a_b" ∧
    lookupA c5st.cache.cached (cacheKey "a_b" (some "c") 5 true) =
      some "ctx of a_b" ∧
    lookupA (save_conversation c5st c5conv none).cache.cached
      (cacheKey "a_b" (some "c") 5 true) = none := by
  decide

/-- Witness for Claim C5: the invalidation hypothesis discharged on the
concrete state; the prefixed key of user a is gone after the save while the
key of user b survives untouched. -/
theorem C5_save_invalidates_witness :
    strStartsWith (clearPrefix "a" none) (cacheKey "a_b" (some "c") 5 true) ∧
    ¬ strStartsWith (clearPrefix "a" none) (cacheKey "b" (some "c") 5 true) ∧
    lookupA (save_conversation c5st c5conv none).cache.cached
      (cacheKey "a_b" (some "c") 5 true) = none ∧
    lookupA (save_conversation c5st c5conv none).cache.times
      (cacheKey "b" (some "c") 5 true) =
      lookupA c5st.cache.times (cacheKey "b" (some "c") 5 true) :=
  ⟨by decide, by decide,
   (C5_save_invalidates c5st c5conv none (by decide)).1
     (cacheKey "a_b" (some "c") 5 true) (by decide),
   ((C5_save_invalidates c5st c5conv none (by decide)).2.2
     (cacheKey "b" (some "c") 5 true) (by decide)).2⟩

theorem insertDesc_perm (x : Conversation) (l : List Conversation) :
    (insertDesc x l).Perm (x :: l) := by
  induction l with
  | nil => exact List.Perm.refl _
  | cons y ys ih =>
      unfold insertDesc
      by_cases h : x.timestamp < y.timestamp
      · rw [if_pos h]
        exact (ih.cons y).trans (List.Perm.swap x y ys)
      · rw [if_neg h]

theorem pySortDesc_perm (l : List Conversation) :
    (pySortDesc l).Perm l := by
  induction l with
  | nil => exact List.Perm.refl _
  | cons x xs ih =>
      unfold pySortDesc
      exact (insertDesc_perm x (pySortDesc xs)).trans (ih.cons x)

theorem pyLower_length (s : String) : (pyLower s).length = s.length := by
  unfold pyLower
  show (s.data.map Char.toLower).length = s.data.length
  exact List.length_map s.data Char.toLower

/-- Claim C7 (amended): when relevant global history is merged into an
existing chat context, every merged global conversation has an id different
from every current-chat conversation id (matching globals are omitted, the
current copies are kept at the front), and therefore the merged list has
pairwise-distinct ids whenever the current-chat list and the fetched global
list each have pairwise-distinct ids; the global list itself can, however,
contribute duplicate ids (inner counterexample of the original claim). -/
theorem C7_merge_dedup (env : FetchEnv) (uid : String) (limit : Nat)
    (convs0 : List Conversation) (q : Option String)
    (hkw : queryKeywords q ≠ []) :
    filterConversations env uid limit convs0 false q =
      (pySortDesc convs0 ++
        ((env.recent uid limit).filter
          (fun c => ¬ ((pySortDesc convs0).map
            (fun x => x.id)).contains c.id)).filter
          (matchesKeywords (queryKeywords q))).take limit ∧
    (∀ c ∈ ((env.recent uid limit).filter
        (fun c => ¬ ((pySortDesc convs0).map
          (fun x => x.id)).contains c.id)).filter
        (matchesKeywords (queryKeywords q)),
      c.id ∉ convs0.map (fun x => x.id)) ∧
    ((convs0.map (fun x => x.id)).Nodup →
      ((env.recent uid limit).map (fun x => x.id)).Nodup →
      ((filterConversations env uid limit convs0 false q).map
        (fun x => x.id)).Nodup) := by
  have hke : ¬ (queryKeywords q).isEmpty = true := by
    intro hcontra
    exact hkw (List.isEmpty_iff.mp hcontra)
  have heq : filterConversations env uid limit convs0 false q =
      (pySortDesc convs0 ++
        ((env.recent uid limit).filter
          (fun c => ¬ ((pySortDesc convs0).map
            (fun x => x.id)).contains c.id)).filter
          (matchesKeywords (queryKeywords q))).take limit := by
    unfold filterConversations
    simp only [Bool.false_eq_true, if_false, hke, not_false_iff, if_true]
  have hglobal : ∀ c ∈ ((env.recent uid limit).filter
      (fun c => ¬ ((pySortDesc convs0).map
        (fun x => x.id)).contains c.id)).filter
      (matchesKeywords (queryKeywords q)),
      c.id ∉ convs0.map (fun x => x.id) := by
    intro c hc
    rw [List.mem_filter] at hc
    have hc1 := hc.1
    rw [List.mem_filter] at hc1
    have hpred := hc1.2
    simp only [decide_eq_true_eq] at hpred
    intro hmem
    apply hpred
    rw [List.elem_iff]
    have hperm : ((pySortDesc convs0).map (fun x => x.id)).Perm
        (convs0.map (fun x => x.id)) := (pySortDesc_perm convs0).map _
    exact hperm.mem_iff.mpr hmem
  refine ⟨heq, hglobal, ?_⟩
  intro hnd0 hndg
  rw [heq]
  have hsub : (((pySortDesc convs0 ++
      ((env.recent uid limit).filter
        (fun c => ¬ ((pySortDesc convs0).map
          (fun x => x.id)).contains c.id)).filter
        (matchesKeywords (queryKeywords q))).take limit).map
      (fun x => x.id)).Sublist
      ((pySortDesc convs0 ++
        ((env.recent uid limit).filter
          (fun c => ¬ ((pySortDesc convs0).map
            (fun x => x.id)).contains c.id)).filter
          (matchesKeywords (queryKeywords q))).map (fun x => x.id)) :=
    (List.take_sublist _ _).map _
  refine hsub.nodup ?_
  rw [List.map_append, List.nodup_append]
  have hperm : ((pySortDesc convs0).map (fun x => x.id)).Perm
      (convs0.map (fun x => x.id)) := (pySortDesc_perm convs0).map _
  refine ⟨hperm.nodup_iff.mpr hnd0, ?_, ?_⟩
  · have hs1 : (((env.recent uid limit).filter
        (fun c => ¬ ((pySortDesc convs0).map
          (fun x => x.id)).contains c.id)).filter
        (matchesKeywords (queryKeywords q))).Sublist
        (env.recent uid limit) :=
      (List.filter_sublist _).trans (List.filter_sublist _)
    exact (hs1.map _).nodup hndg
  · intro a ha hb
    rw [List.mem_map] at ha hb
    obtain ⟨c1, hc1, he1⟩ := ha
    obtain ⟨c2, hc2, he2⟩ := hb
    have := hglobal c2 hc2
    apply this
    rw [he2, ← he1]
    rw [List.mem_map]
    exact ⟨c1, (pySortDesc_perm convs0).mem_iff.mp hc1, rfl⟩

/-- Counterexample to Claim C7 as stated: the list used to build the
context carries the id g1 twice, because the merge only removes global
conversations whose id collides with a current-chat id. -/
theorem C7_counterexample :
    (filterConversations c7env "u" 10 c7current false
      (some "pasta recipes please")).map (fun c => c.id) =
      ["x1", "g1", "g1"] ∧
    ¬ ((filterConversations c7env "u" 10 c7current false
      (some "pasta recipes please")).map (fun c => c.id)).Nodup := by
  decide

/-- Witness for Claim C7: the amended merge equation and disjointness at a
concrete existing chat with one current and one duplicated-id-free global
conversation. -/
theorem C7_merge_dedup_witness :
    queryKeywords (some "pasta recipes please") ≠ [] ∧
    (c7current.map (fun x => x.id)).Nodup ∧
    (([c7dup] : List Conversation).map (fun x => x.id)).Nodup ∧
    ((filterConversations
      ⟨fun _ _ _ => [], fun _ _ => [], fun _ _ => [c7dup]⟩ "u" 10 c7current
      false (some "pasta recipes please")).map (fun c => c.id)).Nodup :=
  ⟨by decide, by decide, by decide,
   (C7_merge_dedup ⟨fun _ _ _ => [], fun _ _ => [], fun _ _ => [c7dup]⟩
     "u" 10 c7current (some "pasta recipes please") (by decide)).2.2
     (by decide) (by decide)⟩

/-- Claim C8: keyword-based relevance filtering for a new chat.  A past
global conversation is injected only when the query yields a keyword (a
word longer than 3 characters whose lowercase form is not a stopword) that
also occurs as a word of the conversation text (user message, AI response
and topics, lowercased); with no keywords or no matching conversation, a
new chat resolves to no conversations and get_conversation_context returns
the no-history message. -/
theorem C8_new_chat_relevance (env : FetchEnv) (st : CacheState) (now : Int)
    (instLimit : Nat) (uid cid : String) (limit0 : Option Nat)
    (q : Option String) (msgs : Option (List Conversation))
    (hcid : cid ≠ "")
    (hnew : env.chatSpecific uid cid (effectiveLimit limit0 instLimit) = [])
    (hmiss : lookupA st.cached
      (cacheKey uid (some cid) (effectiveLimit limit0 instLimit) true) =
      none) :
    (filterConversations env uid (effectiveLimit limit0 instLimit) [] true
        q =
      if (queryKeywords q).isEmpty then []
      else ((env.recent uid (effectiveLimit limit0 instLimit)).filter
        (matchesKeywords (queryKeywords q))).take
        (effectiveLimit limit0 instLimit)) ∧
    (∀ c ∈ filterConversations env uid (effectiveLimit limit0 instLimit) []
        true q,
      c ∈ env.recent uid (effectiveLimit limit0 instLimit) ∧
      ∃ w ∈ queryKeywords q, w ∈ convWords c) ∧
    (∀ w ∈ queryKeywords q, 3 < w.length ∧ ¬ stops.contains w = true) ∧
    ((queryKeywords q = [] ∨
      (env.recent uid (effectiveLimit limit0 instLimit)).filter
        (matchesKeywords (queryKeywords q)) = []) →
      get_conversation_context env st now instLimit uid limit0 (some cid) q
        msgs = (noHistory, st)) := by
  have hfc : filterConversations env uid (effectiveLimit limit0 instLimit)
      [] true q =
      if (queryKeywords q).isEmpty then []
      else ((env.recent uid (effectiveLimit limit0 instLimit)).filter
        (matchesKeywords (queryKeywords q))).take
        (effectiveLimit limit0 instLimit) := by
    unfold filterConversations
    by_cases hk : (queryKeywords q).isEmpty
    · simp [hk]
    · simp [hk]
  refine ⟨hfc, ?_, ?_, ?_⟩
  · intro c hc
    rw [hfc] at hc
    by_cases hk : (queryKeywords q).isEmpty
    · rw [if_pos hk] at hc
      simp at hc
    · rw [if_neg hk] at hc
      have hc2 := (List.take_sublist _ _).mem hc
      rw [List.mem_filter] at hc2
      refine ⟨hc2.1, ?_⟩
      have hm := hc2.2
      unfold matchesKeywords at hm
      rw [List.any_eq_true] at hm
      obtain ⟨w, hw, hww⟩ := hm
      exact ⟨w, hw, List.elem_iff.mp hww⟩
  · intro w hw
    unfold queryKeywords at hw
    by_cases ht : pyTruthy q
    · rw [if_pos ht] at hw
      rw [List.mem_map] at hw
      obtain ⟨w0, hw0, hl⟩ := hw
      rw [List.mem_filter] at hw0
      have hcond := hw0.2
      simp only [decide_eq_true_eq] at hcond
      constructor
      · rw [← hl, pyLower_length]
        exact hcond.2
      · rw [← hl]
        intro hcontra
        exact hcond.1 hcontra
    · rw [if_neg ht] at hw
      simp at hw
  · intro hempty
    have hfc0 : filterConversations env uid
        (effectiveLimit limit0 instLimit) [] true q = [] := by
      rw [hfc]
      rcases hempty with he | he
      · rw [if_pos (List.isEmpty_iff.mpr he)]
      · by_cases hk : (queryKeywords q).isEmpty
        · rw [if_pos hk]
        · rw [if_neg hk, he, List.take_nil]
    by_cases hl : effectiveLimit limit0 instLimit = 0
    · simp [get_conversation_context, hl]
    · simp [get_conversation_context, hl, initialConversations, pyTruthy,
        hcid, hnew, hmiss, hfc0]

/-- Witness for Claim C8: at a concrete new chat, the pasta query injects
the matching global conversation and the keyword facts hold; a query with
no keywords resolves to the no-history message. -/
theorem C8_new_chat_relevance_witness :
    filterConversations c8env "u" (effectiveLimit (some 10) 70) [] true
      (some "tasty pasta") =
      ((c8env.recent "u" (effectiveLimit (some 10) 70)).filter
        (matchesKeywords (queryKeywords (some "tasty pasta")))).take
        (effectiveLimit (some 10) 70) ∧
    get_conversation_context c8env ⟨[], []⟩ 0 70 "u" (some 10)
      (some "chat_9") (some "it is") none = (noHistory, ⟨[], []⟩) :=
  ⟨by
    have h := (C8_new_chat_relevance c8env ⟨[], []⟩ 0 70 "u" "chat_9"
      (some 10) (some "tasty pasta") none (by decide) rfl rfl).1
    rw [h]
    rw [if_neg (by decide)],
   (C8_new_chat_relevance c8env ⟨[], []⟩ 0 70 "u" "chat_9" (some 10)
     (some "it is") none (by decide) rfl rfl).2.2.2 (Or.inl (by decide))⟩

theorem strLen_mk (l : List Char) : (String.mk l).length = l.length := rfl

theorem bigA_length (n : Nat) :
    (String.mk (List.replicate n 'a')).length = n := by
  rw [strLen_mk]
  exact List.length_replicate n 'a'

theorem joinNL_cons_length (l : List String) :
    ∀ a : String, (joinNL (a :: l)).length = sumLens (a :: l) + l.length := by
  induction l with
  | nil =>
      intro a
      simp [joinNL, joinSep, sumLens]
  | cons b t ih =>
      intro a
      show ((a ++ "\n" ++ joinSep "\n" (b :: t)).length) = _
      rw [String.length_append, String.length_append]
      have h2 := ih b
      unfold joinNL at h2
      rw [h2]
      simp only [sumLens, List.map_cons, List.sum_cons, List.length_cons]
      have hnl : ("\n" : String).length = 1 := rfl
      rw [hnl]
      omega

theorem buildParts_counted (convs : List Conversation) :
    ∀ i len, len ≤ 8000 → len + sumLens (buildParts convs i len) ≤ 8000 := by
  induction convs with
  | nil =>
      intro i len h
      simpa [buildParts, sumLens] using h
  | cons c rest ih =>
      intro i len h
      by_cases hx : len + (convText c i).length > 8000
      · unfold buildParts
        rw [if_pos hx]
        simpa [sumLens] using h
      · unfold buildParts
        rw [if_neg hx]
        have h2 := ih (i + 1) (len + (convText c i).length) (by omega)
        simp only [sumLens, List.map_cons, List.sum_cons] at h2 ⊢
        omega

theorem buildParts_count_le (convs : List Conversation) :
    ∀ i len, (buildParts convs i len).length ≤ convs.length := by
  induction convs with
  | nil => intro i len; simp [buildParts]
  | cons c rest ih =>
      intro i len
      by_cases hx : len + (convText c i).length > 8000
      · unfold buildParts
        rw [if_pos hx]
        simp
      · unfold buildParts
        rw [if_neg hx]
        have := ih (i + 1) (len + (convText c i).length)
        simp only [List.length_cons]
        omega

theorem buildParts_take (convs : List Conversation) :
    ∀ i len, ∃ n, n ≤ convs.length ∧
      buildParts convs i len = buildAll (convs.take n) i := by
  induction convs with
  | nil => intro i len; exact ⟨0, Nat.le_refl 0, rfl⟩
  | cons c rest ih =>
      intro i len
      by_cases hx : len + (convText c i).length > 8000
      · refine ⟨0, Nat.zero_le _, ?_⟩
        unfold buildParts
        rw [if_pos hx]
        rfl
      · obtain ⟨n, hn, he⟩ := ih (i + 1) (len + (convText c i).length)
        refine ⟨n + 1, by simpa using Nat.succ_le_succ hn, ?_⟩
        unfold buildParts
        rw [if_neg hx]
        rw [List.take_succ_cons]
        unfold buildAll
        rw [he]

theorem truncMsg_length (s : String) (m : Nat) :
    (truncMsg s m).length =
      min s.length m + (if m < s.length then 3 else 0) := by
  unfold truncMsg
  by_cases h : s.length > m
  · rw [if_pos h, if_pos h, String.length_append]
    have hp : (pyTake s m).length = m := by
      unfold pyTake
      rw [strLen_mk, List.length_take]
      exact Nat.min_eq_left (Nat.le_of_lt h)
    rw [hp]
    have : ("..." : String).length = 3 := rfl
    rw [this]
    omega
  · rw [if_neg h, if_neg h]
    have : min s.length m = s.length :=
      Nat.min_eq_left (Nat.le_of_not_lt h)
    omega

theorem filterConversations_length_le (env : FetchEnv) (uid : String)
    (limit : Nat) (convs0 : List Conversation) (isNew : Bool)
    (q : Option String) :
    (filterConversations env uid limit convs0 isNew q).length ≤ limit := by
  unfold filterConversations
  by_cases hn : isNew = true
  · rw [hn]
    by_cases hk : (queryKeywords q).isEmpty
    · simp [hk]
    · simp only [hk, Bool.not_false, if_true, if_pos]
      exact List.length_take_le _ _
  · have : isNew = false := by
      cases isNew
      · rfl
      · exact absurd rfl hn
    rw [this]
    simp only [Bool.false_eq_true, if_false]
    exact List.length_take_le _ _

/-- Claim C6 (amended): the 8000-character budget bounds the counted length
(header plus entry texts); the joining newlines and the 19-character end
marker are not counted, so the returned string can exceed 8000 but never
8000 + n + 21 characters, n being the number of included entries.  An entry
whose addition would push the counted length past 8000 is dropped together
with all later entries (the kept entries are a prefix), each entry is the
text of one conversation with the user message cut at 500 characters and
the AI response at 1000 (plus a three-character ellipsis when cut), and
every non-cached return of get_conversation_context is the no-history
message or such a built string over at most limit conversations. -/
theorem C6_context_size (isNew : Bool) (convs : List Conversation) :
    ((buildContext isNew convs).length ≤
      8000 + (buildParts convs 1 (ctxHeader isNew).length).length + 21) ∧
    ((buildParts convs 1 (ctxHeader isNew).length).length ≤
      convs.length) ∧
    (∃ n, n ≤ convs.length ∧
      buildParts convs 1 (ctxHeader isNew).length =
        buildAll (convs.take n) 1) ∧
    (∀ (s : String) (m : Nat),
      (truncMsg s m).length =
        min s.length m + (if m < s.length then 3 else 0)) ∧
    (∀ (env : FetchEnv) (st : CacheState) (now : Int) (instLimit : Nat)
      (uid : String) (limit0 : Option Nat) (chat_id : Option String)
      (q : Option String) (msgs : Option (List Conversation)),
      (get_conversation_context env st now instLimit uid limit0 chat_id q
        msgs).1 = noHistory ∨
      (∃ ctx, lookupA st.cached
        (cacheKey uid chat_id (effectiveLimit limit0 instLimit)
          (initialConversations env uid (effectiveLimit limit0 instLimit)
            chat_id msgs).2) = some ctx ∧
        (get_conversation_context env st now instLimit uid limit0 chat_id q
          msgs).1 = ctx) ∨
      (∃ convs2 : List Conversation,
        convs2.length ≤ effectiveLimit limit0 instLimit ∧
        (get_conversation_context env st now instLimit uid limit0 chat_id q
          msgs).1 = buildContext
          (initialConversations env uid (effectiveLimit limit0 instLimit)
            chat_id msgs).2 convs2)) := by
  have hhead : (ctxHeader isNew).length ≤ 8000 := by
    cases isNew <;> decide
  refine ⟨?_, buildParts_count_le convs 1 _, buildParts_take convs 1 _,
    truncMsg_length, ?_⟩
  · have hcount := buildParts_counted convs 1 (ctxHeader isNew).length hhead
    unfold buildContext
    rw [joinNL_cons_length]
    simp only [sumLens, List.map_cons, List.map_append, List.sum_cons,
      List.sum_append, List.length_append, List.length_cons,
      List.length_nil, List.map_nil, List.sum_nil] at hcount ⊢
    have hend : ("\n=== END CONTEXT ===" : String).length = 20 := rfl
    rw [hend]
    omega
  · intro env st now instLimit uid limit0 chat_id q msgs
    by_cases hl : effectiveLimit limit0 instLimit = 0
    · left
      simp [get_conversation_context, hl]
    · cases hc : lookupA st.cached
        (cacheKey uid chat_id (effectiveLimit limit0 instLimit)
          (initialConversations env uid (effectiveLimit limit0 instLimit)
            chat_id msgs).2) with
      | none =>
          by_cases hconv : filterConversations env uid
              (effectiveLimit limit0 instLimit)
              (initialConversations env uid
                (effectiveLimit limit0 instLimit) chat_id msgs).1
              (initialConversations env uid
                (effectiveLimit limit0 instLimit) chat_id msgs).2 q = []
          · left
            simp [get_conversation_context, hl, hc, hconv]
          · right; right
            refine ⟨filterConversations env uid
              (effectiveLimit limit0 instLimit)
              (initialConversations env uid
                (effectiveLimit limit0 instLimit) chat_id msgs).1
              (initialConversations env uid
                (effectiveLimit limit0 instLimit) chat_id msgs).2 q,
              filterConversations_length_le env uid _ _ _ q, ?_⟩
            simp [get_conversation_context, hl, hc, hconv]
      | some ctx =>
          cases ht' : lookupA st.times
              (cacheKey uid chat_id (effectiveLimit limit0 instLimit)
                (initialConversations env uid
                  (effectiveLimit limit0 instLimit) chat_id msgs).2) with
          | none =>
              by_cases hconv : filterConversations env uid
                  (effectiveLimit limit0 instLimit)
                  (initialConversations env uid
                    (effectiveLimit limit0 instLimit) chat_id msgs).1
                  (initialConversations env uid
                    (effectiveLimit limit0 instLimit) chat_id msgs).2 q = []
              · left
                simp [get_conversation_context, hl, hc, ht', hconv]
              · right; right
                refine ⟨filterConversations env uid
              (effectiveLimit limit0 instLimit)
              (initialConversations env uid
                (effectiveLimit limit0 instLimit) chat_id msgs).1
              (initialConversations env uid
                (effectiveLimit limit0 instLimit) chat_id msgs).2 q,
              filterConversations_length_le env uid _ _ _ q, ?_⟩
                simp [get_conversation_context, hl, hc, ht', hconv]
          | some t =>
              by_cases hfresh : now - t < cacheTTL
              · right; left
                refine ⟨ctx, rfl, ?_⟩
                simp [get_conversation_context, hl, hc, ht', hfresh]
              · by_cases hconv : filterConversations env uid
                    (effectiveLimit limit0 instLimit)
                    (initialConversations env uid
                      (effectiveLimit limit0 instLimit) chat_id msgs).1
                    (initialConversations env uid
                      (effectiveLimit limit0 instLimit) chat_id msgs).2 q =
                    []
                · left
                  simp [get_conversation_context, hl, hc, ht', hfresh,
                    hconv]
                · right; right
                  refine ⟨filterConversations env uid
                    (effectiveLimit limit0 instLimit)
                    (initialConversations env uid
                      (effectiveLimit limit0 instLimit) chat_id msgs).1
                    (initialConversations env uid
                      (effectiveLimit limit0 instLimit) chat_id msgs).2 q,
                    filterConversations_length_le env uid _ _ _ q, ?_⟩
                  simp [get_conversation_context, hl, hc, ht', hfresh,
                    hconv]

theorem c6big_text_length (i : Nat) :
    (convText c6big i).length = 1526 + (toString i).length := by
  have ht5 : truncMsg (bigA 500) 500 = bigA 500 := by
    unfold truncMsg
    rw [if_neg (by rw [bigA, bigA_length]; omega)]
  have ht10 : truncMsg (bigA 1000) 1000 = bigA 1000 := by
    unfold truncMsg
    rw [if_neg (by rw [bigA, bigA_length]; omega)]
  unfold convText
  simp only [c6big, ht5, ht10, ne_eq, not_true_eq_false, if_false,
    reduceIte]
  rw [String.length_append, String.length_append, String.length_append,
    String.length_append, String.length_append, String.length_append,
    String.length_append, String.length_append]
  have l1 : ("\n--- Conv " : String).length = 10 := rfl
  have l2 : ("" : String).length = 0 := rfl
  have l3 : (" ---\n" : String).length = 5 := rfl
  have l4 : ("USER: " : String).length = 6 := rfl
  have l5 : ("\n" : String).length = 1 := rfl
  have l6 : ("AI: " : String).length = 4 := rfl
  have l7 : (bigA 500).length = 500 := by rw [bigA, bigA_length]
  have l8 : (bigA 1000).length = 1000 := by rw [bigA, bigA_length]
  rw [l1, l2, l3, l4, l5, l6, l7, l8]
  omega

theorem c6small_text_length :
    (convText c6small 6).length = 337 := by
  have ht : truncMsg (bigA 310) 500 = bigA 310 := by
    unfold truncMsg
    rw [if_neg (by rw [bigA, bigA_length]; omega)]
  have ht0 : truncMsg "" 1000 = "" := by
    unfold truncMsg
    rw [if_neg (by decide)]
  unfold convText
  simp only [c6small, ht, ht0, ne_eq, not_true_eq_false, if_false,
    reduceIte]
  rw [String.length_append, String.length_append, String.length_append,
    String.length_append, String.length_append, String.length_append,
    String.length_append, String.length_append]
  have l1 : ("\n--- Conv " : String).length = 10 := rfl
  have l2 : (toString (6 : Nat)).length = 1 := rfl
  have l3 : ("" : String).length = 0 := rfl
  have l4 : (" ---\n" : String).length = 5 := rfl
  have l5 : ("USER: " : String).length = 6 := rfl
  have l6 : ("\n" : String).length = 1 := rfl
  have l7 : ("AI: " : String).length = 4 := rfl
  have l8 : (bigA 310).length = 310 := by rw [bigA, bigA_length]
  rw [l1, l2, l3, l4, l5, l6, l7, l8]

set_option maxRecDepth 8000

theorem c6_body :
    buildParts c6convs 1 28 =
      [convText c6big 1, convText c6big 2, convText c6big 3,
       convText c6big 4, convText c6big 5, convText c6small 6] := by
  have hb1 : (convText c6big 1).length = 1527 := by
    rw [c6big_text_length]; rfl
  have hb2 : (convText c6big 2).length = 1527 := by
    rw [c6big_text_length]; rfl
  have hb3 : (convText c6big 3).length = 1527 := by
    rw [c6big_text_length]; rfl
  have hb4 : (convText c6big 4).length = 1527 := by
    rw [c6big_text_length]; rfl
  have hb5 : (convText c6big 5).length = 1527 := by
    rw [c6big_text_length]; rfl
  simp only [c6convs, buildParts]
  norm_num [hb1, hb2, hb3, hb4, hb5, c6small_text_length]

/-- Counterexample to Claim C6 as stated: on six stored conversations whose
counted budget is exactly 8000, the returned context string is 8027
characters long, because the newline inserted before each of the eight
joined parts and the 19-character end marker are not counted against the
8000-character budget. -/
theorem C6_counterexample :
    8000 < ((get_conversation_context c6env ⟨[], []⟩ 0 70 "u" (some 10)
      (some "chat") none none).1).length := by
  have hpipe : (get_conversation_context c6env ⟨[], []⟩ 0 70 "u" (some 10)
      (some "chat") none none).1 = buildContext false c6convs := rfl
  have hjoin : (buildContext false c6convs).length = 8027 := by
    simp only [buildContext]
    have hh : (ctxHeader false).length = 28 := rfl
    rw [hh, c6_body]
    rw [joinNL_cons_length]
    simp only [sumLens, List.map_cons, List.map_append, List.sum_cons,
      List.sum_append, List.map_nil, List.sum_nil, List.length_append,
      List.length_cons, List.length_nil]
    have hb1 : (convText c6big 1).length = 1527 := by
      rw [c6big_text_length]; rfl
    have hb2 : (convText c6big 2).length = 1527 := by
      rw [c6big_text_length]; rfl
    have hb3 : (convText c6big 3).length = 1527 := by
      rw [c6big_text_length]; rfl
    have hb4 : (convText c6big 4).length = 1527 := by
      rw [c6big_text_length]; rfl
    have hb5 : (convText c6big 5).length = 1527 := by
      rw [c6big_text_length]; rfl
    rw [hb1, hb2, hb3, hb4, hb5, c6small_text_length]
    have hh2 : (ctxHeader false).length = 28 := rfl
    rw [hh2]
    have hend : ("\n=== END CONTEXT ===" : String).length = 20 := rfl
    rw [hend]
    omega
  rw [hpipe, hjoin]
  omega

end LazyCook
